import Mathlib

/-!
Verification of the capability-command layer of the tss-esapi crate
(`src/tss-esapi/src/context/tpm_commands/capability_commands.rs`).

The two commands `Context::get_capability` and `Context::test_parms` are
shallowly embedded as pure functions of an explicit transport outcome: the
raw response code, the raw more-data flag byte and the raw capability
buffer produced by the external ESAPI transport call.  Logging (the `error!`
and `warn!` macro invocations) is made explicit as a list of structured log
entries returned next to the result.

Helpers that live elsewhere in the repository (`Error::from_tss_rc`,
`CapabilityData::try_from`, `PublicParameters::into`, the
`CapabilityType` constants) are modelled from the specification, as marked
on each definition.
-/

namespace TssEsapi

/-- Wrapper-error kinds.  `WrongValueFromTpm` is the kind used verbatim in
`capability_commands.rs`; the other two kinds stand for the structural
conversion failures of the capability union described by the spec. -/
inductive WrapperErrorKind where
  | WrongValueFromTpm
  | InvalidParam
  | UnsupportedField
deriving DecidableEq, Repr

/-- Modelled from the spec: `Error` is a tagged variant of
`WrapperError(kind)` and `TpmError(raw code)`; the `Success` variant is the
representation of the designated success response code so that
`Error::from_tss_rc` composed with `is_success` behaves as specified. -/
inductive Error where
  | Success
  | WrapperError (kind : WrapperErrorKind)
  | TpmError (raw : Nat)
deriving DecidableEq, Repr

/-- The designated success response code of the TPM protocol. -/
def TPM2_RC_SUCCESS : Nat := 0

/-- Modelled from the spec (Error Taxonomy, `from_code`, not under src/):
returns success for the designated success code; otherwise wraps the raw
code in a `TpmError` variant, preserving the original numeric value. -/
def Error.from_tss_rc (raw : Nat) : Error :=
  if raw = TPM2_RC_SUCCESS then Error.Success else Error.TpmError raw

/-- Modelled from the spec: the success test used by both commands. -/
def Error.is_success : Error → Bool
  | Error.Success => true
  | _ => false

/-- Modelled from the spec (`constants::CapabilityType`, not under src/):
the capability categories a query can request. -/
inductive CapabilityType where
  | Algorithms
  | Handles
  | Command
  | PpCommands
  | AuditCommands
  | AssignedPcr
  | TpmProperties
  | PcrProperties
  | EccCurves
  | AuthPolicies
  | Act
deriving DecidableEq, Repr

/-- Modelled from the spec: the wire discriminant (`TPM2_CAP_*` value) a
capability type marshals to. -/
def CapabilityType.into : CapabilityType → Nat
  | CapabilityType.Algorithms => 0
  | CapabilityType.Handles => 1
  | CapabilityType.Command => 2
  | CapabilityType.PpCommands => 3
  | CapabilityType.AuditCommands => 4
  | CapabilityType.AssignedPcr => 5
  | CapabilityType.TpmProperties => 6
  | CapabilityType.PcrProperties => 7
  | CapabilityType.EccCurves => 8
  | CapabilityType.AuthPolicies => 9
  | CapabilityType.Act => 10

/-- Modelled from the spec: the raw wire union `TPMU_CAPABILITIES`, one
storage field per capability category.  The payload of each arm is left
abstract (a `Nat`); the `authPolicies` and `actData` arms are `Option`
because those fields are structurally absent when the negotiated tpm2-tss
headers predate them (version skew). -/
structure TPMU_CAPABILITIES where
  algorithms : Nat
  handles : Nat
  command : Nat
  ppCommands : Nat
  auditCommands : Nat
  assignedPCR : Nat
  tpmProperties : Nat
  pcrProperties : Nat
  eccCurves : Nat
  authPolicies : Option Nat
  actData : Option Nat
deriving DecidableEq, Repr

/-- Modelled from the spec: the raw wire structure `TPMS_CAPABILITY_DATA`,
a discriminant field next to the union. -/
structure TPMS_CAPABILITY_DATA where
  capability : Nat
  data : TPMU_CAPABILITIES
deriving DecidableEq, Repr

/-- Modelled from the spec: the domain tagged union over capability
categories.  Payloads are abstract, mirroring `TPMU_CAPABILITIES`. -/
inductive CapabilityData where
  | Algorithms (payload : Nat)
  | Handles (payload : Nat)
  | Command (payload : Nat)
  | PpCommands (payload : Nat)
  | AuditCommands (payload : Nat)
  | AssignedPcr (payload : Nat)
  | TpmProperties (payload : Nat)
  | PcrProperties (payload : Nat)
  | EccCurves (payload : Nat)
  | AuthPolicies (payload : Nat)
  | ActData (payload : Nat)
deriving DecidableEq, Repr

/-- The capability category a domain `CapabilityData` variant belongs to. -/
def CapabilityData.tagOf : CapabilityData → CapabilityType
  | CapabilityData.Algorithms _ => CapabilityType.Algorithms
  | CapabilityData.Handles _ => CapabilityType.Handles
  | CapabilityData.Command _ => CapabilityType.Command
  | CapabilityData.PpCommands _ => CapabilityType.PpCommands
  | CapabilityData.AuditCommands _ => CapabilityType.AuditCommands
  | CapabilityData.AssignedPcr _ => CapabilityType.AssignedPcr
  | CapabilityData.TpmProperties _ => CapabilityType.TpmProperties
  | CapabilityData.PcrProperties _ => CapabilityType.PcrProperties
  | CapabilityData.EccCurves _ => CapabilityType.EccCurves
  | CapabilityData.AuthPolicies _ => CapabilityType.AuthPolicies
  | CapabilityData.ActData _ => CapabilityType.Act

/-- Modelled from the spec (Structure Conversion Layer,
`CapabilityData::try_from`, not under src/): dispatches on the discriminant
field to select which union arm to interpret and constructs the
corresponding domain variant from the matching storage field; fails with a
conversion error if the discriminant is unrecognized, or if the selected
field is structurally absent (version skew). -/
def CapabilityData.try_from (raw : TPMS_CAPABILITY_DATA) : Except Error CapabilityData :=
  if raw.capability = CapabilityType.into CapabilityType.Algorithms then
    Except.ok (CapabilityData.Algorithms raw.data.algorithms)
  else if raw.capability = CapabilityType.into CapabilityType.Handles then
    Except.ok (CapabilityData.Handles raw.data.handles)
  else if raw.capability = CapabilityType.into CapabilityType.Command then
    Except.ok (CapabilityData.Command raw.data.command)
  else if raw.capability = CapabilityType.into CapabilityType.PpCommands then
    Except.ok (CapabilityData.PpCommands raw.data.ppCommands)
  else if raw.capability = CapabilityType.into CapabilityType.AuditCommands then
    Except.ok (CapabilityData.AuditCommands raw.data.auditCommands)
  else if raw.capability = CapabilityType.into CapabilityType.AssignedPcr then
    Except.ok (CapabilityData.AssignedPcr raw.data.assignedPCR)
  else if raw.capability = CapabilityType.into CapabilityType.TpmProperties then
    Except.ok (CapabilityData.TpmProperties raw.data.tpmProperties)
  else if raw.capability = CapabilityType.into CapabilityType.PcrProperties then
    Except.ok (CapabilityData.PcrProperties raw.data.pcrProperties)
  else if raw.capability = CapabilityType.into CapabilityType.EccCurves then
    Except.ok (CapabilityData.EccCurves raw.data.eccCurves)
  else if raw.capability = CapabilityType.into CapabilityType.AuthPolicies then
    match raw.data.authPolicies with
    | some payload => Except.ok (CapabilityData.AuthPolicies payload)
    | none => Except.error (Error.WrapperError WrapperErrorKind.UnsupportedField)
  else if raw.capability = CapabilityType.into CapabilityType.Act then
    match raw.data.actData with
    | some payload => Except.ok (CapabilityData.ActData payload)
    | none => Except.error (Error.WrapperError WrapperErrorKind.UnsupportedField)
  else
    Except.error (Error.WrapperError WrapperErrorKind.InvalidParam)

/-- A structured log line: the severity and the error value that was
formatted into the message. -/
inductive LogEntry where
  | error (e : Error)
  | warn (e : Error)
deriving DecidableEq, Repr

/-- The outcome of the external `Esys_GetCapability` transport call:
the raw response code, the raw `moreData` flag byte (a `u8`), and the raw
capability buffer the transport wrote. -/
structure GetCapabilityOutcome where
  ret : Nat
  outmoredata : Nat
  outcapabilitydata : TPMS_CAPABILITY_DATA
deriving DecidableEq, Repr

/-- Embedding of `Context::get_capability`
(`capability_commands.rs`, lines 43-82), given the transport outcome:
validate the more-data flag byte (0 ↦ false, 1 ↦ true, anything else is an
immediate `WrongValueFromTpm`), then interpret the response code; on
success convert the raw buffer via `CapabilityData::try_from` (the `?`
operator propagates its error without logging); on failure log at error
severity and return the structured error.  The second component is the
list of log lines emitted. -/
def get_capability_run (capability : CapabilityType) (property : Nat)
    (property_count : Nat) (out : GetCapabilityOutcome) :
    Except Error (CapabilityData × Bool) × List LogEntry :=
  let moredata? : Option Bool :=
    if out.outmoredata = 0 then some false
    else if out.outmoredata = 1 then some true
    else none
  match moredata? with
  | none =>
      (Except.error (Error.WrapperError WrapperErrorKind.WrongValueFromTpm), [])
  | some moredata =>
      let ret := Error.from_tss_rc out.ret
      if ret.is_success then
        match CapabilityData.try_from out.outcapabilitydata with
        | Except.ok capabilities => (Except.ok (capabilities, moredata), [])
        | Except.error e => (Except.error e, [])
      else
        (Except.error ret, [LogEntry.error ret])

/-- The result of `Context::get_capability`. -/
def get_capability (capability : CapabilityType) (property : Nat)
    (property_count : Nat) (out : GetCapabilityOutcome) :
    Except Error (CapabilityData × Bool) :=
  (get_capability_run capability property property_count out).1

/-- The log lines `Context::get_capability` emits. -/
def get_capability_logs (capability : CapabilityType) (property : Nat)
    (property_count : Nat) (out : GetCapabilityOutcome) : List LogEntry :=
  (get_capability_run capability property property_count out).2

/-- Modelled from the spec: `PublicParameters` is a typed description of a
cryptographic object's public algorithm parameters (key type, scheme,
size), immutable once constructed. -/
structure PublicParameters where
  keyType : Nat
  scheme : Nat
  size : Nat
deriving DecidableEq, Repr

/-- Modelled from the spec: the raw wire form `TPMT_PUBLIC_PARMS`. -/
structure TPMT_PUBLIC_PARMS where
  keyType : Nat
  scheme : Nat
  size : Nat
deriving DecidableEq, Repr

/-- Modelled from the spec (`PublicParameters::into`, not under src/):
lossless, total (non-fallible) conversion from domain to wire
representation.  Totality is witnessed by this being a plain function. -/
def PublicParameters.into (p : PublicParameters) : TPMT_PUBLIC_PARMS :=
  ⟨p.keyType, p.scheme, p.size⟩

/-- Embedding of `Context::test_parms`
(`capability_commands.rs`, lines 89-107), given the raw response code the
transport returned for the converted parameters: interpret the response
code; on success return unit silently, on failure log at warning severity
and return the structured error.  The second component is the list of log
lines emitted. -/
def test_parms_run (public_parmeters : PublicParameters) (ret_raw : Nat) :
    Except Error Unit × List LogEntry :=
  let ret := Error.from_tss_rc ret_raw
  if ret.is_success then
    (Except.ok (), [])
  else
    (Except.error ret, [LogEntry.warn ret])

/-- The result of `Context::test_parms`. -/
def test_parms (public_parmeters : PublicParameters) (ret_raw : Nat) :
    Except Error Unit :=
  (test_parms_run public_parmeters ret_raw).1

/-- The log lines `Context::test_parms` emits. -/
def test_parms_logs (public_parmeters : PublicParameters) (ret_raw : Nat) :
    List LogEntry :=
  (test_parms_run public_parmeters ret_raw).2

/-- A full `test_parms` call against a deterministic transport `t`
(`t` maps the marshalled wire parameters to the raw response code; an
unchanged TPM/transport state between two calls is modelled by both calls
using the same `t`). -/
def test_parms_call (t : TPMT_PUBLIC_PARMS → Nat) (p : PublicParameters) :
    Except Error Unit :=
  test_parms p (t (PublicParameters.into p))

/-- Two successive `test_parms` calls with the same parameters against the
same transport state. -/
def test_parms_twice (t : TPMT_PUBLIC_PARMS → Nat) (p : PublicParameters) :
    Except Error Unit × Except Error Unit :=
  (test_parms_call t p, test_parms_call t p)

/-! ### Helper lemmas and sample data -/

/-- Sample raw union payload used by witnesses. -/
def sampleUnion : TPMU_CAPABILITIES :=
  ⟨100, 101, 102, 103, 104, 105, 106, 107, 108, some 109, some 110⟩

/-- Sample raw capability buffer whose discriminant is the Algorithms one. -/
def sampleAlgorithmsRaw : TPMS_CAPABILITY_DATA := ⟨0, sampleUnion⟩

/-- Sample raw capability buffer with an unrecognized discriminant. -/
def sampleBadRaw : TPMS_CAPABILITY_DATA := ⟨99, sampleUnion⟩

/-- Sample public parameters used by witnesses. -/
def sampleParams : PublicParameters := ⟨1, 2, 3⟩

/-- Full characterization of `get_capability_run`, by cases over the flag
byte and the response code. -/
theorem get_capability_run_eq (capability : CapabilityType)
    (property property_count : Nat) (out : GetCapabilityOutcome) :
    get_capability_run capability property property_count out =
      if out.outmoredata = 0 ∨ out.outmoredata = 1 then
        if out.ret = TPM2_RC_SUCCESS then
          match CapabilityData.try_from out.outcapabilitydata with
          | Except.ok c => (Except.ok (c, decide (out.outmoredata = 1)), [])
          | Except.error e => (Except.error e, [])
        else
          (Except.error (Error.TpmError out.ret),
            [LogEntry.error (Error.TpmError out.ret)])
      else
        (Except.error (Error.WrapperError WrapperErrorKind.WrongValueFromTpm), []) := by
  unfold get_capability_run
  by_cases h0 : out.outmoredata = 0
  · by_cases hr : out.ret = TPM2_RC_SUCCESS
    · simp [h0, hr, Error.from_tss_rc, Error.is_success]
    · simp [h0, hr, Error.from_tss_rc, Error.is_success]
  · by_cases h1 : out.outmoredata = 1
    · by_cases hr : out.ret = TPM2_RC_SUCCESS
      · simp [h0, h1, hr, Error.from_tss_rc, Error.is_success]
      · simp [h0, h1, hr, Error.from_tss_rc, Error.is_success]
    · simp [h0, h1]

/-- When the conversion succeeds and the raw discriminant is the wire value
of the requested capability type, the produced variant carries that type. -/
theorem try_from_tag (c : CapabilityType) (raw : TPMS_CAPABILITY_DATA)
    (hc : raw.capability = CapabilityType.into c) (d : CapabilityData)
    (h : CapabilityData.try_from raw = Except.ok d) :
    CapabilityData.tagOf d = c := by
  cases c <;>
    simp [CapabilityData.try_from, CapabilityType.into, hc] at h <;>
    first
      | (subst h; rfl)
      | (rcases hopt : raw.data.authPolicies with _ | v <;> rw [hopt] at h <;>
          simp at h <;> subst h <;> rfl)
      | (rcases hopt : raw.data.actData with _ | v <;> rw [hopt] at h <;>
          simp at h <;> subst h <;> rfl)

/-! ### Claim theorems -/

/-- Claim C1: in `get_capability` the returned `more_data` boolean is `true`
exactly when the raw flag byte equals 1 and `false` exactly when it equals
0; for every other byte value the call returns
`WrapperError WrongValueFromTpm`, and no other output field (buffer or
response code) is consulted in that case. -/
theorem get_capability_moredata_flag (capability : CapabilityType)
    (property property_count : Nat) (out : GetCapabilityOutcome) :
    (∀ d b, get_capability capability property property_count out = Except.ok (d, b) →
      ((b = true ↔ out.outmoredata = 1) ∧ (b = false ↔ out.outmoredata = 0))) ∧
    (out.outmoredata ≠ 0 → out.outmoredata ≠ 1 →
      ∀ (r : Nat) (u : TPMS_CAPABILITY_DATA),
        get_capability capability property property_count ⟨r, out.outmoredata, u⟩ =
          Except.error (Error.WrapperError WrapperErrorKind.WrongValueFromTpm)) := by
  constructor
  · intro d b hok
    unfold get_capability at hok
    rw [get_capability_run_eq] at hok
    by_cases hflag : out.outmoredata = 0 ∨ out.outmoredata = 1
    · rcases hflag with h0 | h1
      · simp [h0] at hok
        by_cases hr : out.ret = TPM2_RC_SUCCESS
        · rw [if_pos hr] at hok
          rcases htf : CapabilityData.try_from out.outcapabilitydata with e | c <;>
            rw [htf] at hok <;> simp at hok
          simp [h0, hok.2]
        · rw [if_neg hr] at hok
          simp at hok
      · simp [h1] at hok
        by_cases hr : out.ret = TPM2_RC_SUCCESS
        · rw [if_pos hr] at hok
          rcases htf : CapabilityData.try_from out.outcapabilitydata with e | c <;>
            rw [htf] at hok <;> simp at hok
          simp [h1, hok.2]
        · rw [if_neg hr] at hok
          simp at hok
    · simp [if_neg hflag] at hok
  · intro h0 h1 r u
    unfold get_capability
    rw [get_capability_run_eq]
    simp [h0, h1]

/-- Witness for claim C1: flag byte 2 yields `WrongValueFromTpm` at a
concrete outcome. -/
theorem get_capability_moredata_flag_witness :
    get_capability CapabilityType.Algorithms 0 80 ⟨0, 2, sampleAlgorithmsRaw⟩ =
      Except.error (Error.WrapperError WrapperErrorKind.WrongValueFromTpm) :=
  (get_capability_moredata_flag CapabilityType.Algorithms 0 80
    ⟨0, 2, sampleAlgorithmsRaw⟩).2 (by decide) (by decide) 0 sampleAlgorithmsRaw

/-- Claim C2: when the raw flag byte is outside 0 and 1 the result is
`WrongValueFromTpm` regardless of the command's primary response code —
even a success code still yields `WrongValueFromTpm`. -/
theorem get_capability_invalid_flag_overrides_rc (capability : CapabilityType)
    (property property_count : Nat) (out : GetCapabilityOutcome)
    (h0 : out.outmoredata ≠ 0) (h1 : out.outmoredata ≠ 1) :
    get_capability capability property property_count out =
      Except.error (Error.WrapperError WrapperErrorKind.WrongValueFromTpm) := by
  unfold get_capability
  rw [get_capability_run_eq]
  simp [h0, h1]

/-- Witness for claim C2: flag byte 2 with the success response code. -/
theorem get_capability_invalid_flag_overrides_rc_witness :
    get_capability CapabilityType.Algorithms 0 80
        ⟨TPM2_RC_SUCCESS, 2, sampleAlgorithmsRaw⟩ =
      Except.error (Error.WrapperError WrapperErrorKind.WrongValueFromTpm) :=
  get_capability_invalid_flag_overrides_rc CapabilityType.Algorithms 0 80
    ⟨TPM2_RC_SUCCESS, 2, sampleAlgorithmsRaw⟩ (by decide) (by decide)

/-- Claim C3: when the transport echoes the requested capability in the raw
discriminant (as the TPM wire protocol mandates), `get_capability` never
returns `Ok` with a `CapabilityData` variant that mismatches the requested
capability type. -/
theorem get_capability_variant_matches (capability : CapabilityType)
    (property property_count : Nat) (out : GetCapabilityOutcome)
    (hconf : out.outcapabilitydata.capability = CapabilityType.into capability) :
    ∀ d b, get_capability capability property property_count out = Except.ok (d, b) →
      CapabilityData.tagOf d = capability := by
  intro d b hok
  unfold get_capability at hok
  rw [get_capability_run_eq] at hok
  by_cases hflag : out.outmoredata = 0 ∨ out.outmoredata = 1
  · rw [if_pos hflag] at hok
    by_cases hr : out.ret = TPM2_RC_SUCCESS
    · rw [if_pos hr] at hok
      rcases htf : CapabilityData.try_from out.outcapabilitydata with e | c <;>
        rw [htf] at hok <;> simp at hok
      exact hok.1 ▸ try_from_tag capability out.outcapabilitydata hconf c htf
    · rw [if_neg hr] at hok
      simp at hok
  · rw [if_neg hflag] at hok
    simp at hok

/-- Witness for claim C3: a concrete successful Algorithms query yields the
Algorithms variant. -/
theorem get_capability_variant_matches_witness :
    CapabilityData.tagOf (CapabilityData.Algorithms 100) = CapabilityType.Algorithms :=
  get_capability_variant_matches CapabilityType.Algorithms 0 80
    ⟨TPM2_RC_SUCCESS, 0, sampleAlgorithmsRaw⟩ (by decide)
    (CapabilityData.Algorithms 100) false (by rfl)

/-- Claim C4: when the primary response code of `get_capability` indicates
failure, the structured error is returned and the output buffer is never
consulted: the same error results for every possible buffer content. -/
theorem get_capability_failure_no_conversion (capability : CapabilityType)
    (property property_count : Nat) (out : GetCapabilityOutcome)
    (hflag : out.outmoredata = 0 ∨ out.outmoredata = 1)
    (hfail : out.ret ≠ TPM2_RC_SUCCESS) :
    get_capability capability property property_count out =
        Except.error (Error.TpmError out.ret) ∧
    ∀ data' : TPMS_CAPABILITY_DATA,
      get_capability capability property property_count ⟨out.ret, out.outmoredata, data'⟩ =
        Except.error (Error.TpmError out.ret) := by
  constructor
  · unfold get_capability
    rw [get_capability_run_eq]
    simp [hflag, hfail]
  · intro data'
    unfold get_capability
    rw [get_capability_run_eq]
    simp [hflag, hfail]

/-- Witness for claim C4: a failing response code 42 with a garbage buffer
still returns the structured `TpmError 42`. -/
theorem get_capability_failure_no_conversion_witness :
    get_capability CapabilityType.Algorithms 0 80 ⟨42, 0, sampleBadRaw⟩ =
      Except.error (Error.TpmError 42) :=
  (get_capability_failure_no_conversion CapabilityType.Algorithms 0 80
    ⟨42, 0, sampleBadRaw⟩ (Or.inl rfl) (by decide)).2 sampleBadRaw

/-- Claim C5: `test_parms` returns `Ok(())` exactly when the response code
is the designated success code, and otherwise returns the structured error
derived from the raw response code. -/
theorem test_parms_spec (p : PublicParameters) (ret_raw : Nat) :
    (test_parms p ret_raw = Except.ok () ↔ ret_raw = TPM2_RC_SUCCESS) ∧
    (ret_raw ≠ TPM2_RC_SUCCESS →
      test_parms p ret_raw = Except.error (Error.TpmError ret_raw)) := by
  unfold test_parms test_parms_run
  by_cases hr : ret_raw = TPM2_RC_SUCCESS <;>
    simp [hr, Error.from_tss_rc, Error.is_success]

/-- Witness for claim C5: a concrete success and a concrete failure. -/
theorem test_parms_spec_witness :
    test_parms sampleParams TPM2_RC_SUCCESS = Except.ok () ∧
    test_parms sampleParams 5 = Except.error (Error.TpmError 5) :=
  ⟨(test_parms_spec sampleParams TPM2_RC_SUCCESS).1.mpr rfl,
    (test_parms_spec sampleParams 5).2 (by decide)⟩

/-- Counterexample to claim C6: the invalid-flag-byte path of
`get_capability` is a failure path that emits no log line, refuting that
every failure path logs. -/
theorem get_capability_unlogged_failure :
    get_capability CapabilityType.Algorithms 0 80
        ⟨TPM2_RC_SUCCESS, 2, sampleAlgorithmsRaw⟩ =
      Except.error (Error.WrapperError WrapperErrorKind.WrongValueFromTpm) ∧
    get_capability_logs CapabilityType.Algorithms 0 80
        ⟨TPM2_RC_SUCCESS, 2, sampleAlgorithmsRaw⟩ = [] := ⟨rfl, rfl⟩

/-- Claim C6 (amended): `get_capability` logs exactly one error-severity
line on the command-failure path (valid flag byte, failing response code)
and nothing on any other path — in particular nothing on success, nothing
on the invalid-flag-byte path and nothing on the conversion-failure path;
`test_parms` logs exactly one warning-severity line on failure and nothing
on success. -/
theorem capability_commands_logging (capability : CapabilityType)
    (property property_count : Nat) (out : GetCapabilityOutcome)
    (p : PublicParameters) (ret_raw : Nat) :
    (get_capability_logs capability property property_count out =
      if (out.outmoredata = 0 ∨ out.outmoredata = 1) ∧ out.ret ≠ TPM2_RC_SUCCESS then
        [LogEntry.error (Error.TpmError out.ret)]
      else []) ∧
    (test_parms_logs p ret_raw =
      if ret_raw ≠ TPM2_RC_SUCCESS then [LogEntry.warn (Error.TpmError ret_raw)]
      else []) := by
  constructor
  · unfold get_capability_logs
    rw [get_capability_run_eq]
    by_cases hflag : out.outmoredata = 0 ∨ out.outmoredata = 1
    · by_cases hr : out.ret = TPM2_RC_SUCCESS
      · rcases htf : CapabilityData.try_from out.outcapabilitydata with e | c <;>
          simp [hflag, hr, htf]
      · simp [hflag, hr]
    · simp [hflag]
  · unfold test_parms_logs test_parms_run
    by_cases hr : ret_raw = TPM2_RC_SUCCESS <;>
      simp [hr, Error.from_tss_rc, Error.is_success]

/-- Claim C7: `test_parms` is idempotent — two calls with the same
parameters against the same transport state yield the same outcome. -/
theorem test_parms_idempotent (t : TPMT_PUBLIC_PARMS → Nat) (p : PublicParameters) :
    (test_parms_twice t p).1 = (test_parms_twice t p).2 := rfl

/-- Claim C8: the conversion of `PublicParameters` to its wire form is
total (every value has a wire image), so `test_parms` can never fail during
input conversion: every failure it returns comes from the response code,
never from conversion. -/
theorem test_parms_input_conversion_total (p : PublicParameters) (ret_raw : Nat) :
    (∃ w : TPMT_PUBLIC_PARMS, PublicParameters.into p = w) ∧
    (∀ e, test_parms p ret_raw = Except.error e → e = Error.TpmError ret_raw) := by
  refine ⟨⟨PublicParameters.into p, rfl⟩, ?_⟩
  intro e he
  unfold test_parms test_parms_run at he
  by_cases hr : ret_raw = TPM2_RC_SUCCESS <;>
    simp [hr, Error.from_tss_rc, Error.is_success] at he
  exact he.symm

/-- Witness for claim C8: a concrete failing call reports the response-code
error, not a conversion error. -/
theorem test_parms_input_conversion_total_witness :
    Error.TpmError 5 = Error.TpmError 5 ∧
    (∃ w : TPMT_PUBLIC_PARMS, PublicParameters.into sampleParams = w) :=
  ⟨(test_parms_input_conversion_total sampleParams 5).2 (Error.TpmError 5) rfl,
    (test_parms_input_conversion_total sampleParams 5).1⟩

/-- Claim C9: `Error.from_tss_rc` returns success exactly for the
designated success code and otherwise wraps the raw code in a `TpmError`
variant preserving the original numeric value. -/
theorem from_tss_rc_spec (raw : Nat) :
    ((Error.from_tss_rc raw).is_success = true ↔ raw = TPM2_RC_SUCCESS) ∧
    (raw ≠ TPM2_RC_SUCCESS → Error.from_tss_rc raw = Error.TpmError raw) := by
  by_cases hr : raw = TPM2_RC_SUCCESS <;>
    simp [hr, Error.from_tss_rc, Error.is_success]

/-- Witness for claim C9: the success code maps to success and code 7 maps
to `TpmError 7`. -/
theorem from_tss_rc_spec_witness :
    (Error.from_tss_rc TPM2_RC_SUCCESS).is_success = true ∧
    Error.from_tss_rc 7 = Error.TpmError 7 :=
  ⟨(from_tss_rc_spec TPM2_RC_SUCCESS).1.mpr rfl, (from_tss_rc_spec 7).2 (by decide)⟩

/-- Claim C10: `get_capability` returns `Ok` exactly when the flag byte is
0 or 1, the response code is the success code, and the buffer conversion
succeeds; and a conversion failure after a successful response code is
propagated to the caller as that conversion error. -/
theorem get_capability_ok_iff (capability : CapabilityType)
    (property property_count : Nat) (out : GetCapabilityOutcome) :
    ((∃ v, get_capability capability property property_count out = Except.ok v) ↔
      ((out.outmoredata = 0 ∨ out.outmoredata = 1) ∧ out.ret = TPM2_RC_SUCCESS ∧
        ∃ d, CapabilityData.try_from out.outcapabilitydata = Except.ok d)) ∧
    (∀ e, (out.outmoredata = 0 ∨ out.outmoredata = 1) → out.ret = TPM2_RC_SUCCESS →
      CapabilityData.try_from out.outcapabilitydata = Except.error e →
      get_capability capability property property_count out = Except.error e) := by
  constructor
  · unfold get_capability
    rw [get_capability_run_eq]
    by_cases hflag : out.outmoredata = 0 ∨ out.outmoredata = 1
    · by_cases hr : out.ret = TPM2_RC_SUCCESS
      · rcases htf : CapabilityData.try_from out.outcapabilitydata with e | c <;>
          simp [hflag, hr, htf]
      · simp [hflag, hr]
    · simp [hflag]
  · intro e hflag hr htf
    unfold get_capability
    rw [get_capability_run_eq]
    simp [hflag, hr, htf]

/-- Witness for claim C10: with a valid flag, a success code and a buffer
whose discriminant is unrecognized, the conversion error is the result. -/
theorem get_capability_ok_iff_witness :
    get_capability CapabilityType.Algorithms 0 80 ⟨TPM2_RC_SUCCESS, 0, sampleBadRaw⟩ =
      Except.error (Error.WrapperError WrapperErrorKind.InvalidParam) :=
  (get_capability_ok_iff CapabilityType.Algorithms 0 80
    ⟨TPM2_RC_SUCCESS, 0, sampleBadRaw⟩).2
    (Error.WrapperError WrapperErrorKind.InvalidParam) (Or.inl rfl) rfl (by rfl)

end TssEsapi
